import Mathlib

/-!
Shallow embedding of `custom_components/yandex_weather/sensor.py` from the
HA-YandexWeather integration, together with proofs of the specified
properties of the sensor platform: descriptor table, entity construction,
availability, value/icon reads, update delegation and listener lifecycle.
-/

namespace YandexWeather

/-- Python runtime errors that the embedded operations can raise. -/
inductive PyError where
  | keyError
  | indexError
deriving DecidableEq, Repr

/-- Python dict values occurring in the weather snapshot: strings and
integers are enough to model arbitrary snapshot content. -/
inductive Val where
  | vStr : String → Val
  | vInt : Int → Val
deriving DecidableEq, Repr

/-- Python `d[k]` on a dict modelled as an association list: the value when
the key is present, `KeyError` otherwise. -/
def dictIndex {α : Type} (d : List (String × α)) (k : String) :
    Except PyError α :=
  match d.lookup k with
  | some v => .ok v
  | none => .error .keyError

/-- Python `l[i]` on a list: the element when in range, `IndexError`
otherwise. -/
def listIndex {α : Type} (l : List α) (i : Nat) : Except PyError α :=
  match l.get? i with
  | some x => .ok x
  | none => .error .indexError

/-- Python `s.split(sep)` for a one-character separator, at the level of
character lists: chunks between occurrences of `c`; always nonempty. -/
def splitOnChar (c : Char) : List Char → List (List Char)
  | [] => [[]]
  | x :: xs =>
    if x = c then [] :: splitOnChar c xs
    else
      match splitOnChar c xs with
      | [] => [[x]]
      | y :: ys => (x :: y) :: ys

/-- Python `s.split("-")`-style split of a string on a single character. -/
def pySplit (s : String) (c : Char) : List String :=
  (splitOnChar c s.data).map String.mk

/-- Modelled from the spec: `const.py` is not part of the given sources;
the attribute-key constants imported from it are opaque distinct string
keys of the weather snapshot. -/
def ATTR_API_TEMPERATURE : String := "temperature"

/-- Modelled from the spec: attribute key from `const.py`. -/
def ATTR_API_FEELS_LIKE_TEMPERATURE : String := "feels_like"

/-- Modelled from the spec: attribute key from `const.py`. -/
def ATTR_API_WIND_SPEED : String := "wind_speed"

/-- Modelled from the spec: attribute key from `const.py`. -/
def ATTR_API_WIND_BEARING : String := "wind_bearing"

/-- Modelled from the spec: attribute key from `const.py`. -/
def ATTR_API_HUMIDITY : String := "humidity"

/-- Modelled from the spec: attribute key from `const.py`. -/
def ATTR_API_PRESSURE : String := "pressure"

/-- Modelled from the spec: attribute key from `const.py`. -/
def ATTR_API_PRESSURE_MMHG : String := "pressure_mmhg"

/-- Modelled from the spec: attribute key from `const.py`. -/
def ATTR_API_CONDITION : String := "condition"

/-- Modelled from the spec: attribute key from `const.py`. -/
def ATTR_API_WEATHER_TIME : String := "weather_time"

/-- Modelled from the spec: attribute key from `const.py`; the condition
sensor key whose icon is read from the sibling `..._icon` snapshot key. -/
def ATTR_API_YA_CONDITION : String := "yandex_condition"

/-- Modelled from the spec: integration domain constant from `const.py`. -/
def DOMAIN : String := "yandex_weather"

/-- Modelled from the spec: manufacturer constant from `const.py`. -/
def MANUFACTURER : String := "Yandex"

/-- Modelled from the spec: default device name constant from `const.py`. -/
def DEFAULT_NAME : String := "Yandex Weather"

/-- Modelled from the spec: attribution constant from `const.py`. -/
def ATTRIBUTN : String := "Data provided by Yandex Weather"

/-- Framework unit constant `TEMP_CELSIUS`. -/
def TEMP_CELSIUS : String := "°C"

/-- Framework unit constant `PERCENTAGE`. -/
def PERCENTAGE : String := "%"

/-- Framework unit constant `PRESSURE_HPA`. -/
def PRESSURE_HPA : String := "hPa"

/-- Framework unit constant `PRESSURE_MMHG`. -/
def PRESSURE_MMHG : String := "mmHg"

/-- Framework unit constant `SPEED_METERS_PER_SECOND`. -/
def SPEED_METERS_PER_SECOND : String := "m/s"

/-- Framework `SensorEntityDescription`: the descriptor metadata record,
with the fields the source file populates. -/
structure SensorEntityDescription where
  key : String
  name : String
  native_unit_of_measurement : Option String := none
  device_class : Option String := none
  state_class : Option String := none
  icon : Option String := none
  entity_registry_enabled_default : Bool := true
  entity_category : Option String := none
deriving DecidableEq, Repr

/-- The static descriptor table `WEATHER_SENSORS` of `sensor.py`. -/
def WEATHER_SENSORS : List SensorEntityDescription := [
  { key := ATTR_API_TEMPERATURE
    name := "Temperature"
    native_unit_of_measurement := some TEMP_CELSIUS
    device_class := some "temperature"
    state_class := some "measurement"
    entity_registry_enabled_default := false },
  { key := ATTR_API_FEELS_LIKE_TEMPERATURE
    name := "Feels like temperature"
    native_unit_of_measurement := some TEMP_CELSIUS
    device_class := some "temperature"
    state_class := some "measurement"
    entity_registry_enabled_default := false },
  { key := ATTR_API_WIND_SPEED
    name := "Wind speed"
    native_unit_of_measurement := some SPEED_METERS_PER_SECOND
    state_class := some "measurement"
    entity_registry_enabled_default := false },
  { key := ATTR_API_WIND_BEARING
    name := "Wind bearing"
    native_unit_of_measurement := some ""
    state_class := some "measurement"
    entity_registry_enabled_default := false },
  { key := ATTR_API_HUMIDITY
    name := "Humidity"
    native_unit_of_measurement := some PERCENTAGE
    device_class := some "humidity"
    state_class := some "measurement"
    entity_registry_enabled_default := false },
  { key := ATTR_API_PRESSURE
    name := "Pressure"
    native_unit_of_measurement := some PRESSURE_HPA
    device_class := some "pressure"
    state_class := some "measurement"
    entity_registry_enabled_default := false },
  { key := ATTR_API_CONDITION
    name := "Condition"
    entity_registry_enabled_default := false },
  { key := ATTR_API_WEATHER_TIME
    name := "Data update time"
    device_class := some "timestamp"
    state_class := some "measurement"
    entity_registry_enabled_default := true
    entity_category := some "diagnostic" },
  { key := ATTR_API_YA_CONDITION
    name := "Condition"
    entity_registry_enabled_default := true },
  { key := ATTR_API_PRESSURE_MMHG
    name := "Pressure mmHg"
    native_unit_of_measurement := some PRESSURE_MMHG
    icon := some "mdi:gauge"
    state_class := some "measurement"
    entity_registry_enabled_default := true }]

/-- The updater state visible to this file: the success flag and the
weather snapshot (`"fact"` maps to the per-attribute dict). -/
structure WeatherUpdater where
  last_update_success : Bool
  weather_data : List (String × List (String × Val))
deriving DecidableEq, Repr

/-- Framework `DeviceInfo` record, with the fields the source populates. -/
structure DeviceInfo where
  entry_type : String
  identifiers : List (String × String)
  manufacturer : String
  name : String
deriving DecidableEq, Repr

/-- A constructed sensor entity: the attributes `__init__` assigns. -/
structure YandexWeatherSensor where
  entity_description : SensorEntityDescription
  updater : WeatherUpdater
  attr_name : String
  attr_unique_id : String
  attr_device_info : DeviceInfo
deriving DecidableEq, Repr

/-- `YandexWeatherSensor.__init__`: stores the descriptor and updater,
builds the display name and unique id, splits the unique id on `-` and
indexes segments 0 and 1 for the device identifier (the indexing of
segment 1 raises `IndexError` when the id has no hyphen). -/
def YandexWeatherSensor.init (name unique_id : String)
    (description : SensorEntityDescription) (updater : WeatherUpdater) :
    Except PyError YandexWeatherSensor := do
  let split_unique_id := pySplit unique_id '-'
  let s0 ← listIndex split_unique_id 0
  let s1 ← listIndex split_unique_id 1
  pure
    { entity_description := description
      updater := updater
      attr_name := name ++ " " ++ description.name
      attr_unique_id := unique_id
      attr_device_info :=
        { entry_type := "service"
          identifiers := [(DOMAIN, s0 ++ "-" ++ s1)]
          manufacturer := MANUFACTURER
          name := DEFAULT_NAME } }

/-- `async_setup_entry`: one sensor per descriptor, with unique id
`{config_entry.unique_id}-{description.key}`. -/
def async_setup_entry (name : String) (config_entry_unique_id : String)
    (updater : WeatherUpdater) : Except PyError (List YandexWeatherSensor) :=
  WEATHER_SENSORS.mapM fun description =>
    YandexWeatherSensor.init name
      (config_entry_unique_id ++ "-" ++ description.key) description updater

/-- `YandexWeatherSensor.available`: the updater's success flag. -/
def YandexWeatherSensor.available (self : YandexWeatherSensor) : Bool :=
  self.updater.last_update_success

/-- `YandexWeatherSensor.native_value`:
`self._updater.weather_data["fact"].get(self.entity_description.key, None)`.
The `["fact"]` indexing raises `KeyError` if the snapshot has no `"fact"`
entry; the `.get` returns `None` (`none`) for a missing sensor key. -/
def YandexWeatherSensor.native_value (self : YandexWeatherSensor) :
    Except PyError (Option Val) :=
  match dictIndex self.updater.weather_data "fact" with
  | .ok fact => .ok (fact.lookup self.entity_description.key)
  | .error e => .error e

/-- Modelled from the spec: the framework base class default icon behavior
(`super().icon`), which resolves to the descriptor's static icon metadata
when set, else no icon. The base class is framework code outside the
sources. -/
def defaultIcon (description : SensorEntityDescription) : Option String :=
  description.icon

/-- `YandexWeatherSensor.icon`: for the `ATTR_API_YA_CONDITION` sensor,
`weather_data["fact"].get(f"{ATTR_API_YA_CONDITION}_icon", None)` (the
`["fact"]` indexing can raise `KeyError`); for every other key,
`super().icon` (a Python string, injected into `Val` by `Val.vStr`). -/
def YandexWeatherSensor.icon (self : YandexWeatherSensor) :
    Except PyError (Option Val) :=
  if self.entity_description.key = ATTR_API_YA_CONDITION then
    match dictIndex self.updater.weather_data "fact" with
    | .ok fact => .ok (fact.lookup (ATTR_API_YA_CONDITION ++ "_icon"))
    | .error e => .error e
  else
    .ok ((defaultIcon self.entity_description).map Val.vStr)

/-- The updater entry points a sensor method can call. -/
inductive UpdaterCall where
  | requestRefresh
deriving DecidableEq, Repr

/-- `YandexWeatherSensor.async_update` with its effects made explicit: the
resulting sensor state and the list of updater calls the body performs.
The body is `await self._updater.async_request_refresh()`: no field
assignment, no snapshot access, the awaited result discarded. -/
def YandexWeatherSensor.async_update (self : YandexWeatherSensor) :
    YandexWeatherSensor × List UpdaterCall :=
  (self, [UpdaterCall.requestRefresh])

/-- Modelled from the spec: the updater's listener registry
(`async_add_listener` in the external updater/coordinator) appends the
callback; callbacks are identified by `Nat` tokens. -/
def async_add_listener (listeners : List Nat) (cb : Nat) : List Nat :=
  listeners ++ [cb]

/-- Modelled from the spec: invoking the unsubscribe handle returned by
`async_add_listener` removes that one subscription from the registry. -/
def unsubscribe (listeners : List Nat) (cb : Nat) : List Nat :=
  listeners.erase cb

/-- Registry plus the attachment status of one sensor. -/
structure LifecycleState where
  listeners : List Nat
  attached : Bool
deriving DecidableEq, Repr

/-- Framework lifecycle events for one sensor. -/
inductive LifecycleEvent where
  | attach
  | detach
deriving DecidableEq, Repr

/-- One lifecycle step of a sensor with callback `cb`:
`async_added_to_hass` registers the single callback
(`self.async_write_ha_state`) with the updater and hands the unsubscribe
handle to `async_on_remove`; detaching invokes that handle. -/
def lifecycleStep (cb : Nat) (s : LifecycleState) (e : LifecycleEvent) :
    LifecycleState :=
  match e with
  | .attach => { listeners := async_add_listener s.listeners cb, attached := true }
  | .detach => { listeners := unsubscribe s.listeners cb, attached := false }

/-- Run a sequence of lifecycle events. -/
def runLifecycle (cb : Nat) (s : LifecycleState) :
    List LifecycleEvent → LifecycleState
  | [] => s
  | e :: es => runLifecycle cb (lifecycleStep cb s e) es

/-- A sequence of events alternates correctly from attachment status `b`:
attach only while detached, detach only while attached (the framework
never attaches an attached entity). -/
def alternates : Bool → List LifecycleEvent → Bool
  | _, [] => true
  | b, .attach :: es => !b && alternates true es
  | b, .detach :: es => b && alternates false es

/-- Reading `native_value`, as a state-passing observation: the Python
property body contains no assignment, so the post-state is the pre-state. -/
def observe_native_value (self : YandexWeatherSensor) :
    Except PyError (Option Val) × YandexWeatherSensor :=
  (self.native_value, self)

/-- Reading `icon`, as a state-passing observation: the Python property
body contains no assignment, so the post-state is the pre-state. -/
def observe_icon (self : YandexWeatherSensor) :
    Except PyError (Option Val) × YandexWeatherSensor :=
  (self.icon, self)

/-- The device identifier string `__init__` derives from a unique id: the
first two `-`-separated segments rejoined with `-`. -/
def deviceIdent (uid : String) : String :=
  (pySplit uid '-').getD 0 "" ++ "-" ++ (pySplit uid '-').getD 1 ""

/-- A concrete fact mapping used for concrete evaluations. -/
def sampleFact : List (String × Val) :=
  [(ATTR_API_TEMPERATURE, Val.vInt 5),
   (ATTR_API_YA_CONDITION ++ "_icon", Val.vStr "mdi:weather-sunny")]

/-- A concrete updater whose snapshot has a `"fact"` entry. -/
def sampleUpdater : WeatherUpdater :=
  { last_update_success := true
    weather_data := [("fact", sampleFact)] }

/-- A concrete updater whose snapshot has no `"fact"` entry. -/
def emptyUpdater : WeatherUpdater :=
  { last_update_success := false
    weather_data := [] }

/-- A concrete temperature descriptor. -/
def sampleDescription : SensorEntityDescription :=
  { key := ATTR_API_TEMPERATURE, name := "Temperature" }

/-- A concrete condition descriptor (key `ATTR_API_YA_CONDITION`). -/
def conditionDescription : SensorEntityDescription :=
  { key := ATTR_API_YA_CONDITION, name := "Condition" }

/-- A concrete temperature sensor over `sampleUpdater`. -/
def sampleSensor : YandexWeatherSensor :=
  { entity_description := sampleDescription
    updater := sampleUpdater
    attr_name := "Home Temperature"
    attr_unique_id := "cfg-temperature"
    attr_device_info :=
      { entry_type := "service"
        identifiers := [(DOMAIN, "cfg-temperature")]
        manufacturer := MANUFACTURER
        name := DEFAULT_NAME } }

/-- A concrete condition sensor over `sampleUpdater`. -/
def conditionSensor : YandexWeatherSensor :=
  { sampleSensor with entity_description := conditionDescription }

/-- A concrete sensor whose snapshot lacks the `"fact"` entry. -/
def noFactSensor : YandexWeatherSensor :=
  { sampleSensor with updater := emptyUpdater }

/-- The sensor that `async_setup_entry` constructs for a descriptor `d`:
unique id `{cfg}-{d.key}` and device identifier from its first two
`-`-separated segments. -/
def setupSensor (name cfg : String) (u : WeatherUpdater)
    (d : SensorEntityDescription) : YandexWeatherSensor :=
  { entity_description := d
    updater := u
    attr_name := name ++ " " ++ d.name
    attr_unique_id := cfg ++ "-" ++ d.key
    attr_device_info :=
      { entry_type := "service"
        identifiers := [(DOMAIN, deviceIdent (cfg ++ "-" ++ d.key))]
        manufacturer := MANUFACTURER
        name := DEFAULT_NAME } }

/-! ## Helper lemmas -/

theorem splitOnChar_ne_nil (c : Char) (l : List Char) :
    splitOnChar c l ≠ [] := by
  induction l with
  | nil => simp [splitOnChar]
  | cons x xs ih =>
    simp only [splitOnChar]
    split
    · simp
    · cases h : splitOnChar c xs with
      | nil => simp
      | cons y ys => simp

theorem splitOnChar_append (c : Char) (a b : List Char) :
    splitOnChar c (a ++ c :: b) = splitOnChar c a ++ splitOnChar c b := by
  induction a with
  | nil => simp [splitOnChar]
  | cons x xs ih =>
    by_cases hx : x = c
    · subst hx
      simp [splitOnChar, ih]
    · cases h : splitOnChar c xs with
      | nil => exact absurd h (splitOnChar_ne_nil c xs)
      | cons y ys =>
        simp only [List.cons_append, splitOnChar, if_neg hx, List.append_eq,
          ih, h]

theorem length_splitOnChar (c : Char) (l : List Char) :
    (splitOnChar c l).length = l.count c + 1 := by
  induction l with
  | nil => simp [splitOnChar]
  | cons x xs ih =>
    by_cases hx : x = c
    · subst hx
      simp [splitOnChar, ih, List.count_cons]
    · simp only [splitOnChar, if_neg hx]
      cases h : splitOnChar c xs with
      | nil => exact absurd h (splitOnChar_ne_nil c xs)
      | cons y ys =>
        have := ih
        rw [h] at this
        simp only [List.length_cons] at this ⊢
        rw [List.count_cons, if_neg (by exact fun hh => hx (by simpa using hh))]
        omega

theorem length_pySplit (s : String) (c : Char) :
    (pySplit s c).length = s.data.count c + 1 := by
  simp [pySplit, length_splitOnChar]

theorem pySplit_ne_nil (s : String) (c : Char) : pySplit s c ≠ [] := by
  intro h
  have := length_pySplit s c
  rw [h] at this
  simp at this

theorem pySplit_append (a b : String) :
    pySplit (a ++ "-" ++ b) '-' = pySplit a '-' ++ pySplit b '-' := by
  unfold pySplit
  have hdata : (a ++ "-" ++ b).data = a.data ++ '-' :: b.data := by
    simp [String.data_append]
  rw [hdata, splitOnChar_append, List.map_append]

theorem exists_cons_cons_of_two_le {α : Type} (l : List α)
    (h : 2 ≤ l.length) : ∃ x y t, l = x :: y :: t := by
  cases l with
  | nil => simp at h
  | cons x xs =>
    cases xs with
    | nil => simp at h
    | cons y t => exact ⟨x, y, t, rfl⟩

theorem init_of_cons_cons (name uid : String) (d : SensorEntityDescription)
    (u : WeatherUpdater) (s0 s1 : String) (rest : List String)
    (h : pySplit uid '-' = s0 :: s1 :: rest) :
    YandexWeatherSensor.init name uid d u = .ok
      { entity_description := d
        updater := u
        attr_name := name ++ " " ++ d.name
        attr_unique_id := uid
        attr_device_info :=
          { entry_type := "service"
            identifiers := [(DOMAIN, s0 ++ "-" ++ s1)]
            manufacturer := MANUFACTURER
            name := DEFAULT_NAME } } := by
  simp [YandexWeatherSensor.init, h, listIndex, Bind.bind, Except.bind,
    Pure.pure, Except.pure]

theorem init_of_singleton (name uid : String) (d : SensorEntityDescription)
    (u : WeatherUpdater) (s0 : String) (h : pySplit uid '-' = [s0]) :
    YandexWeatherSensor.init name uid d u = .error PyError.indexError := by
  simp [YandexWeatherSensor.init, h, listIndex, Bind.bind, Except.bind]

theorem two_le_length_pySplit_append (a b : String) :
    2 ≤ (pySplit (a ++ "-" ++ b) '-').length := by
  rw [pySplit_append, List.length_append]
  have ha := List.length_pos.mpr (pySplit_ne_nil a '-')
  have hb := List.length_pos.mpr (pySplit_ne_nil b '-')
  omega

theorem init_append_ok (name a : String) (d : SensorEntityDescription)
    (u : WeatherUpdater) :
    YandexWeatherSensor.init name (a ++ "-" ++ d.key) d u =
      .ok (setupSensor name a u d) := by
  obtain ⟨s0, s1, t, hsplit⟩ :=
    exists_cons_cons_of_two_le _ (two_le_length_pySplit_append a d.key)
  rw [init_of_cons_cons name _ d u s0 s1 t hsplit]
  unfold setupSensor deviceIdent
  rw [hsplit]
  rfl

theorem mapM_ok_of_forall_ok {α β : Type} (f : α → Except PyError β)
    (g : α → β) (l : List α) (h : ∀ a ∈ l, f a = .ok (g a)) :
    l.mapM f = .ok (l.map g) := by
  induction l with
  | nil => rfl
  | cons x xs ih =>
    have hx := h x (List.mem_cons_self x xs)
    have hxs := ih fun a ha => h a (List.mem_cons_of_mem x ha)
    rw [List.mapM_cons, hx, hxs]
    rfl

theorem async_setup_entry_eq (name cfg : String) (u : WeatherUpdater) :
    async_setup_entry name cfg u =
      .ok (WEATHER_SENSORS.map (setupSensor name cfg u)) := by
  unfold async_setup_entry
  exact mapM_ok_of_forall_ok _ _ _ fun d _ => init_append_ok name cfg d u

theorem init_ok_iff (name uid : String) (d : SensorEntityDescription)
    (u : WeatherUpdater) :
    (∃ r, YandexWeatherSensor.init name uid d u = .ok r) ↔
      '-' ∈ uid.data := by
  constructor
  · rintro ⟨r, hr⟩
    by_contra hmem
    have hcount : uid.data.count '-' = 0 := List.count_eq_zero.mpr hmem
    have hlen : (pySplit uid '-').length = 1 := by
      rw [length_pySplit, hcount]
    obtain ⟨x, hx⟩ : ∃ x, pySplit uid '-' = [x] := by
      cases h : pySplit uid '-' with
      | nil => exact absurd h (pySplit_ne_nil uid '-')
      | cons a t =>
        cases t with
        | nil => exact ⟨a, rfl⟩
        | cons b t2 => rw [h] at hlen; simp at hlen
    rw [init_of_singleton name uid d u x hx] at hr
    simp at hr
  · intro hmem
    have hcount : 0 < uid.data.count '-' := List.count_pos_iff.mpr hmem
    have hlen : 2 ≤ (pySplit uid '-').length := by
      rw [length_pySplit]; omega
    obtain ⟨s0, s1, t, hsplit⟩ := exists_cons_cons_of_two_le _ hlen
    exact ⟨_, init_of_cons_cons name uid d u s0 s1 t hsplit⟩

theorem init_error_of_not_mem (name uid : String)
    (d : SensorEntityDescription) (u : WeatherUpdater)
    (hmem : '-' ∉ uid.data) :
    YandexWeatherSensor.init name uid d u = .error PyError.indexError := by
  have hcount : uid.data.count '-' = 0 := List.count_eq_zero.mpr hmem
  have hlen : (pySplit uid '-').length = 1 := by
    rw [length_pySplit, hcount]
  obtain ⟨x, hx⟩ : ∃ x, pySplit uid '-' = [x] := by
    cases h : pySplit uid '-' with
    | nil => exact absurd h (pySplit_ne_nil uid '-')
    | cons a t =>
      cases t with
      | nil => exact ⟨a, rfl⟩
      | cons b t2 => rw [h] at hlen; simp at hlen
  exact init_of_singleton name uid d u x hx

theorem native_value_ok_iff (s : YandexWeatherSensor) :
    (∃ v, s.native_value = .ok v) ↔
      (s.updater.weather_data.lookup "fact").isSome := by
  cases h : s.updater.weather_data.lookup "fact" with
  | none => simp [YandexWeatherSensor.native_value, dictIndex, h]
  | some fact => simp [YandexWeatherSensor.native_value, dictIndex, h]

theorem icon_ok_iff (s : YandexWeatherSensor) :
    (∃ v, s.icon = .ok v) ↔
      (s.entity_description.key ≠ ATTR_API_YA_CONDITION ∨
        (s.updater.weather_data.lookup "fact").isSome) := by
  by_cases hk : s.entity_description.key = ATTR_API_YA_CONDITION
  · cases h : s.updater.weather_data.lookup "fact" with
    | none => simp [YandexWeatherSensor.icon, hk, dictIndex, h]
    | some fact => simp [YandexWeatherSensor.icon, hk, dictIndex, h]
  · simp [YandexWeatherSensor.icon, hk]


/-! ## Claim theorems -/

/-- C1 (amended): when the snapshot's `weather_data` has a `"fact"` entry,
`native_value` returns the value stored under the sensor's descriptor key
when present and an absent value (`none`) when the key is missing, without
raising; when `weather_data` has no `"fact"` entry, `native_value` raises
`KeyError`. -/
theorem native_value_spec (s : YandexWeatherSensor) :
    (∀ fact : List (String × Val),
      s.updater.weather_data.lookup "fact" = some fact →
        s.native_value = .ok (fact.lookup s.entity_description.key)) ∧
    (s.updater.weather_data.lookup "fact" = none →
      s.native_value = .error PyError.keyError) := by
  constructor
  · intro fact hf
    simp [YandexWeatherSensor.native_value, dictIndex, hf]
  · intro hf
    simp [YandexWeatherSensor.native_value, dictIndex, hf]

/-- C1 witness: concrete evaluations of both branches of
`native_value_spec`. -/
theorem native_value_spec_witness :
    sampleSensor.native_value = .ok (some (Val.vInt 5)) ∧
    noFactSensor.native_value = .error PyError.keyError := by
  constructor
  · exact (native_value_spec sampleSensor).1 sampleFact rfl
  · exact (native_value_spec noFactSensor).2 rfl

/-- C1 counterexample: the claim says `native_value` never raises for any
snapshot content including one with no `"fact"` entry, but on such a
snapshot the `weather_data["fact"]` indexing raises `KeyError`. -/
theorem native_value_raises_counterexample :
    noFactSensor.native_value = .error PyError.keyError := rfl

/-- C2: `available` returns exactly the updater's `last_update_success`
flag, and depends on no other state: any two sensors whose updaters agree
on the flag agree on availability. -/
theorem available_spec (s : YandexWeatherSensor) (b : Bool) :
    (s.available = b ↔ s.updater.last_update_success = b) ∧
    (∀ t : YandexWeatherSensor,
      t.updater.last_update_success = s.updater.last_update_success →
        t.available = s.available) := by
  refine ⟨Iff.rfl, ?_⟩
  intro t ht
  simp [YandexWeatherSensor.available, ht]

/-- C2 witness: `available_spec` at a concrete sensor. -/
theorem available_spec_witness :
    (sampleSensor.available = true ↔
      sampleSensor.updater.last_update_success = true) ∧
    sampleSensor.available = sampleSensor.available :=
  ⟨(available_spec sampleSensor true).1,
   (available_spec sampleSensor true).2 sampleSensor rfl⟩

/-- C3: platform setup succeeds and the sensor built for each descriptor
has unique id `{config_entry_unique_id}-{descriptor.key}`. -/
theorem setup_unique_ids (name cfg : String) (u : WeatherUpdater) :
    ∃ l, async_setup_entry name cfg u = .ok l ∧
      l.map YandexWeatherSensor.attr_unique_id =
        WEATHER_SENSORS.map fun d => cfg ++ "-" ++ d.key := by
  refine ⟨_, async_setup_entry_eq name cfg u, ?_⟩
  rw [List.map_map]
  rfl

/-- C4: given a snapshot with a `"fact"` mapping, the condition sensor
(descriptor key `ATTR_API_YA_CONDITION`) reads its icon from the
`{ATTR_API_YA_CONDITION}_icon` key of that mapping, falling back to the
default icon (none for this descriptor) when the key is absent; every
sensor with a different key gets the base-class default icon. -/
theorem icon_spec (s : YandexWeatherSensor) (fact : List (String × Val))
    (hf : s.updater.weather_data.lookup "fact" = some fact) :
    (s.entity_description.key = ATTR_API_YA_CONDITION →
      s.icon = .ok (fact.lookup (ATTR_API_YA_CONDITION ++ "_icon")) ∧
      (fact.lookup (ATTR_API_YA_CONDITION ++ "_icon") = none →
        s.entity_description.icon = none →
        s.icon = .ok ((defaultIcon s.entity_description).map Val.vStr))) ∧
    (s.entity_description.key ≠ ATTR_API_YA_CONDITION →
      s.icon = .ok ((defaultIcon s.entity_description).map Val.vStr)) := by
  constructor
  · intro hk
    have hicon :
        s.icon = .ok (fact.lookup (ATTR_API_YA_CONDITION ++ "_icon")) := by
      simp [YandexWeatherSensor.icon, hk, dictIndex, hf]
    refine ⟨hicon, ?_⟩
    intro habs hdesc
    rw [hicon, habs]
    simp [defaultIcon, hdesc]
  · intro hk
    simp [YandexWeatherSensor.icon, hk]

/-- C4 witness: the condition sensor resolves its dynamic icon from the
snapshot; a non-condition sensor gets the default icon. -/
theorem icon_spec_witness :
    conditionSensor.icon = .ok (some (Val.vStr "mdi:weather-sunny")) ∧
    sampleSensor.icon = .ok none := by
  constructor
  · exact ((icon_spec conditionSensor sampleFact rfl).1 rfl).1
  · exact (icon_spec sampleSensor sampleFact rfl).2 (by decide)

/-- C5 (amended): no operation catches an exception, and `available`,
`async_update` and the lifecycle handlers are total; but sensor
construction raises `IndexError` exactly when the supplied unique id has
no hyphen, and `native_value` (and the condition sensor's `icon`) raise
`KeyError` exactly when `weather_data` lacks a `"fact"` entry; platform
setup itself always succeeds because the ids it builds contain a hyphen. -/
theorem operations_exception_spec (name cfg uid : String)
    (d : SensorEntityDescription) (u : WeatherUpdater)
    (s : YandexWeatherSensor) :
    ((∃ r, YandexWeatherSensor.init name uid d u = .ok r) ↔
      '-' ∈ uid.data) ∧
    ('-' ∉ uid.data →
      YandexWeatherSensor.init name uid d u = .error PyError.indexError) ∧
    (∃ l, async_setup_entry name cfg u = .ok l) ∧
    ((∃ v, s.native_value = .ok v) ↔
      (s.updater.weather_data.lookup "fact").isSome) ∧
    ((∃ v, s.icon = .ok v) ↔
      (s.entity_description.key ≠ ATTR_API_YA_CONDITION ∨
        (s.updater.weather_data.lookup "fact").isSome)) :=
  ⟨init_ok_iff name uid d u,
   init_error_of_not_mem name uid d u,
   ⟨_, async_setup_entry_eq name cfg u⟩,
   native_value_ok_iff s,
   icon_ok_iff s⟩

/-- C5 witness: concrete instances of the amended exception behavior. -/
theorem operations_exception_spec_witness :
    (∃ l, async_setup_entry "Home" "cfg" sampleUpdater = .ok l) ∧
    YandexWeatherSensor.init "Home" "nodash" sampleDescription
      sampleUpdater = .error PyError.indexError := by
  refine ⟨(operations_exception_spec "Home" "cfg" "nodash"
    sampleDescription sampleUpdater sampleSensor).2.2.1, ?_⟩
  exact (operations_exception_spec "Home" "cfg" "nodash" sampleDescription
    sampleUpdater sampleSensor).2.1 (by decide)

/-- C5 counterexample: the claim says no operation of this file raises for
any accepted input, but sensor construction on a hyphen-free unique id
raises `IndexError`. -/
theorem init_raises_counterexample :
    YandexWeatherSensor.init "Home" "nohyphen" sampleDescription
      sampleUpdater = .error PyError.indexError := rfl

/-- C6: starting from a registry holding no subscription of the sensor's
callback, after any alternating attach/detach sequence the sensor holds
exactly one subscription while attached and none while detached. -/
theorem listener_lifecycle (cb : Nat) (st : LifecycleState)
    (es : List LifecycleEvent)
    (h0 : st.listeners.count cb = if st.attached then 1 else 0)
    (ha : alternates st.attached es = true) :
    (runLifecycle cb st es).listeners.count cb =
      if (runLifecycle cb st es).attached then 1 else 0 := by
  induction es generalizing st with
  | nil => simpa [runLifecycle] using h0
  | cons e rest ih =>
    cases e with
    | attach =>
      simp only [alternates, Bool.and_eq_true, Bool.not_eq_true'] at ha
      obtain ⟨hb, hrest⟩ := ha
      rw [hb] at h0
      simp only [runLifecycle]
      apply ih
      · simp [lifecycleStep, async_add_listener, List.count_append, h0]
      · simpa [lifecycleStep] using hrest
    | detach =>
      simp only [alternates, Bool.and_eq_true] at ha
      obtain ⟨hb, hrest⟩ := ha
      rw [hb] at h0
      simp only [runLifecycle]
      apply ih
      · simp [lifecycleStep, unsubscribe, List.count_erase_self, h0]
      · simpa [lifecycleStep] using hrest

/-- C6 witness: one attach/detach cycle followed by an attach leaves
exactly one subscription. -/
theorem listener_lifecycle_witness :
    (runLifecycle 0 ⟨[], false⟩
      [LifecycleEvent.attach, LifecycleEvent.detach,
       LifecycleEvent.attach]).listeners.count 0 = 1 := by
  simpa using listener_lifecycle 0 ⟨[], false⟩
    [LifecycleEvent.attach, LifecycleEvent.detach, LifecycleEvent.attach]
    (by rfl) (by rfl)

/-- C7: `async_update` performs exactly one updater call, the refresh
request, and leaves the sensor (and hence the shared snapshot reference)
unchanged. -/
theorem async_update_effects (s : YandexWeatherSensor) :
    s.async_update.2 = [UpdaterCall.requestRefresh] ∧
    s.async_update.1 = s ∧
    s.async_update.1.updater.weather_data = s.updater.weather_data :=
  ⟨rfl, rfl, rfl⟩

/-- C8: the descriptor table holds exactly ten descriptors and platform
setup constructs exactly ten sensors, one per descriptor (the table is a
fixed value never mutated, which the embedding makes definitional). -/
theorem weather_sensors_table (name cfg : String) (u : WeatherUpdater) :
    WEATHER_SENSORS.length = 10 ∧
    ∃ l, async_setup_entry name cfg u = .ok l ∧ l.length = 10 := by
  refine ⟨rfl, _, async_setup_entry_eq name cfg u, ?_⟩
  rw [List.length_map]
  rfl

/-- C9: construction succeeds exactly when the unique id contains a
hyphen; on success the device identifier is built from the first two
hyphen-separated segments only, and a hyphen-free id raises
`IndexError`. -/
theorem init_hyphen_spec (name uid : String) (d : SensorEntityDescription)
    (u : WeatherUpdater) :
    ((∃ s, YandexWeatherSensor.init name uid d u = .ok s) ↔
      '-' ∈ uid.data) ∧
    (∀ s, YandexWeatherSensor.init name uid d u = .ok s →
      s.attr_device_info.identifiers = [(DOMAIN, deviceIdent uid)]) ∧
    ('-' ∉ uid.data →
      YandexWeatherSensor.init name uid d u = .error PyError.indexError) := by
  refine ⟨init_ok_iff name uid d u, ?_, init_error_of_not_mem name uid d u⟩
  intro s hs
  cases hsplit : pySplit uid '-' with
  | nil => exact absurd hsplit (pySplit_ne_nil uid '-')
  | cons s0 t =>
    cases t with
    | nil =>
      rw [init_of_singleton name uid d u s0 hsplit] at hs
      simp at hs
    | cons s1 t2 =>
      rw [init_of_cons_cons name uid d u s0 s1 t2 hsplit] at hs
      cases hs
      unfold deviceIdent
      rw [hsplit]
      rfl

/-- C9 witness: `init_hyphen_spec` at a hyphenated and a hyphen-free
unique id. -/
theorem init_hyphen_spec_witness :
    (∃ s, YandexWeatherSensor.init "Home" "a-b-c" sampleDescription
      sampleUpdater = .ok s) ∧
    YandexWeatherSensor.init "Home" "abc" sampleDescription sampleUpdater =
      .error PyError.indexError := by
  refine ⟨(init_hyphen_spec "Home" "a-b-c" sampleDescription
    sampleUpdater).1.mpr (by decide), ?_⟩
  exact (init_hyphen_spec "Home" "abc" sampleDescription
    sampleUpdater).2.2 (by decide)

/-- C10: reading `native_value` and `icon` are pure observations: reads
are deterministic across consecutive reads, and the post-state (sensor,
its updater reference and the shared snapshot) equals the pre-state. -/
theorem reads_pure (s : YandexWeatherSensor) :
    (observe_native_value s).1 =
      (observe_native_value (observe_native_value s).2).1 ∧
    (observe_native_value s).2 = s ∧
    (observe_icon s).1 = (observe_icon (observe_icon s).2).1 ∧
    (observe_icon s).2 = s ∧
    (observe_native_value s).2.updater = s.updater ∧
    (observe_icon s).2.updater = s.updater :=
  ⟨rfl, rfl, rfl, rfl, rfl, rfl⟩

end YandexWeather
